import Mathlib

/-
Verification of the request-dispatch and error-classification engine of
view.py. The repository ships only the C headers of this subsystem
(src/include/view/view.h and the errors header); the bodies of the declared
functions are not in the tree, so every behavioural definition below is
modelled from the design document (spec.md) and marked as such in its doc
comment. The C declarations fix the signatures:

  uint16_t hash_client_error(int status);
  uint16_t hash_server_error(int status);
  int load_errors(route* r, PyObject* dict);
  int fire_error(ViewApp* self, PyObject* awaitable, int status, route* r,
                 bool* called, const char* message, const char* method_str);
  int server_err(ViewApp* self, PyObject* awaitable, uint16_t status,
                 route* r, bool* handler_was_called, const char* method_str);
  void view_fatal(const char* message, ...);
-/

namespace ViewPy

/-- Handlers are opaque references (PyObject pointers in the C code);
modelled as identifiers. -/
abbrev Handler := Nat

/-- Modelled from the spec: status codes outside both legal ranges
(400 to 499 and 500 to 599) are classified using a single generic default
index rather than hashed.  The spec fixes only that this is one fixed
index distinct from any real slot; we pick the first index past the two
100-wide tables. -/
def default_index : Nat := 100

/-- Modelled from the spec: the body of the declared C function
`uint16_t hash_client_error(int status)` is absent from the tree.  Per the
spec it maps the 100-wide client-error range onto the dense index range by
a direct offset, status minus 400, and yields the generic default index on
any status outside 400 to 499. -/
def hash_client_error (status : Int) : Nat :=
  if 400 ≤ status ∧ status ≤ 499 then (status - 400).toNat else default_index

/-- Modelled from the spec: the body of the declared C function
`uint16_t hash_server_error(int status)` is absent from the tree.  Per the
spec it maps the 100-wide server-error range onto the dense index range by
a direct offset, status minus 500, and yields the generic default index on
any status outside 500 to 599. -/
def hash_server_error (status : Int) : Nat :=
  if 500 ≤ status ∧ status ≤ 599 then (status - 500).toNat else default_index

/-- C1: on the client-error range the classifier is the direct offset
status minus 400, on the server-error range the direct offset status minus
500; each is injective on its 100-wide range, and adding the range start
back recovers the original status code. -/
theorem hash_status_perfect :
    (∀ s : Int, 400 ≤ s → s ≤ 499 →
      (hash_client_error s : Int) = s - 400 ∧
      400 + (hash_client_error s : Int) = s) ∧
    (∀ s : Int, 500 ≤ s → s ≤ 599 →
      (hash_server_error s : Int) = s - 500 ∧
      500 + (hash_server_error s : Int) = s) ∧
    (∀ s t : Int, 400 ≤ s → s ≤ 499 → 400 ≤ t → t ≤ 499 →
      hash_client_error s = hash_client_error t → s = t) ∧
    (∀ s t : Int, 500 ≤ s → s ≤ 599 → 500 ≤ t → t ≤ 599 →
      hash_server_error s = hash_server_error t → s = t) := by
  have hc : ∀ s : Int, 400 ≤ s → s ≤ 499 →
      (hash_client_error s : Int) = s - 400 := by
    intro s h1 h2
    simp only [hash_client_error, if_pos (And.intro h1 h2)]
    omega
  have hs : ∀ s : Int, 500 ≤ s → s ≤ 599 →
      (hash_server_error s : Int) = s - 500 := by
    intro s h1 h2
    simp only [hash_server_error, if_pos (And.intro h1 h2)]
    omega
  refine ⟨?_, ?_, ?_, ?_⟩
  · intro s h1 h2
    have := hc s h1 h2
    exact ⟨this, by omega⟩
  · intro s h1 h2
    have := hs s h1 h2
    exact ⟨this, by omega⟩
  · intro s t hs1 hs2 ht1 ht2 heq
    have h1 := hc s hs1 hs2
    have h2 := hc t ht1 ht2
    have : (hash_client_error s : Int) = (hash_client_error t : Int) := by
      exact congrArg Int.ofNat heq
    omega
  · intro s t hs1 hs2 ht1 ht2 heq
    have h1 := hs s hs1 hs2
    have h2 := hs t ht1 ht2
    have : (hash_server_error s : Int) = (hash_server_error t : Int) := by
      exact congrArg Int.ofNat heq
    omega

/-- Witness for C1 at the concrete status codes 404 and 503. -/
theorem hash_status_perfect_witness :
    400 + (hash_client_error 404 : Int) = 404 ∧
    500 + (hash_server_error 503 : Int) = 503 :=
  ⟨(hash_status_perfect.1 404 (by decide) (by decide)).2,
   (hash_status_perfect.2.1 503 (by decide) (by decide)).2⟩

/-- C4: the classifiers are total Lean functions, and every status code
outside the legal range of each yields the single generic default index. -/
theorem hash_total_default :
    (∀ s : Int, s < 400 ∨ 499 < s → hash_client_error s = default_index) ∧
    (∀ s : Int, s < 500 ∨ 599 < s → hash_server_error s = default_index) := by
  constructor
  · intro s h
    have : ¬ (400 ≤ s ∧ s ≤ 499) := by omega
    simp [hash_client_error, this]
  · intro s h
    have : ¬ (500 ≤ s ∧ s ≤ 599) := by omega
    simp [hash_server_error, this]

/-- Witness for C4 at the concrete out-of-range status codes 200 and 302,
and at a negative status. -/
theorem hash_total_default_witness :
    hash_client_error 200 = default_index ∧
    hash_server_error 302 = default_index ∧
    hash_client_error (-1) = default_index :=
  ⟨hash_total_default.1 200 (Or.inl (by decide)),
   hash_total_default.2 302 (Or.inl (by decide)),
   hash_total_default.1 (-1) (Or.inl (by decide))⟩

/-- An HTTP response: status line plus body.  Headers are irrelevant to the
claims and omitted. -/
structure Response where
  status : Int
  body : String
deriving DecidableEq

/-- A parsed request as delivered by the transport layer; only the parts
the dispatch claims mention. -/
structure Request where
  method : String
  path : String
deriving DecidableEq

/-- Modelled from the spec: a Route Table entry.  The C `route` struct is
only forward-declared in the shipped headers; per the spec a route holds a
path pattern, the set of accepted methods, the bound handler reference and
optional per-route error-handler overrides.  The two dense fixed-size
error tables (client indices and server indices, 100 slots each) are
modelled as total maps from index to optional handler; slots at or above
`default_index` play the role of the out-of-table region and are never
written by `load_errors`. -/
structure route where
  pattern : String
  methods : List String
  handler : Handler
  client_errors : Nat → Option Handler
  server_errors : Nat → Option Handler

/-- Modelled from the spec: the per-application state `ViewApp` owns the
Route Table and the application-level Error Registry (same two dense
tables as a route, serving as the fallback chain below per-route
overrides). -/
structure ViewApp where
  routes : List route
  client_errors : Nat → Option Handler
  server_errors : Nat → Option Handler

/-- Write one slot of a dense error table (last write wins). -/
def set_slot (t : Nat → Option Handler) (i : Nat) (h : Handler) :
    Nat → Option Handler :=
  fun j => if j = i then some h else t j

/-- Modelled from the spec: the body of the declared C function
`int load_errors(route* r, PyObject* dict)` is absent from the tree.  Per
the spec it populates the per-index handler slots of a route from a
user-supplied status-to-handler mapping at load time: client-error
statuses go to the client table at their hashed index, server-error
statuses to the server table, entries are processed in mapping order so a
later entry for the same status overwrites an earlier one.  The C function
mutates the route and returns an int code; we return the updated route. -/
def load_errors (r : route) (dict : List (Int × Handler)) : route :=
  dict.foldl
    (fun acc e =>
      if 400 ≤ e.1 ∧ e.1 ≤ 499 then
        { acc with
          client_errors := set_slot acc.client_errors (hash_client_error e.1) e.2 }
      else if 500 ≤ e.1 ∧ e.1 ≤ 599 then
        { acc with
          server_errors := set_slot acc.server_errors (hash_server_error e.1) e.2 }
      else acc)
    r

/-- The step function of `assign_from` for the client table: carry forward
the latest handler assigned to client index `i`. -/
def client_step (i : Nat) (acc : Option Handler) (e : Int × Handler) :
    Option Handler :=
  if (400 ≤ e.1 ∧ e.1 ≤ 499) ∧ hash_client_error e.1 = i then some e.2 else acc

/-- The step function of `assign_from` for the server table. -/
def server_step (i : Nat) (acc : Option Handler) (e : Int × Handler) :
    Option Handler :=
  if (500 ≤ e.1 ∧ e.1 ≤ 599) ∧ hash_server_error e.1 = i then some e.2 else acc

/-- The handler the mapping assigns to client index `i`, starting from a
prior slot value `x` (the last assignment wins). -/
def assign_client_from (x : Option Handler) (m : List (Int × Handler))
    (i : Nat) : Option Handler :=
  m.foldl (client_step i) x

/-- The handler the mapping assigns to server index `i`, starting from a
prior slot value `x`. -/
def assign_server_from (x : Option Handler) (m : List (Int × Handler))
    (i : Nat) : Option Handler :=
  m.foldl (server_step i) x

lemma load_errors_client_get (m : List (Int × Handler)) (r : route) (i : Nat) :
    (load_errors r m).client_errors i = assign_client_from (r.client_errors i) m i := by
  induction m generalizing r with
  | nil => rfl
  | cons e m ih =>
    show (load_errors _ m).client_errors i = _
    rw [ih]
    have : (if 400 ≤ e.1 ∧ e.1 ≤ 499 then
        { r with client_errors := set_slot r.client_errors (hash_client_error e.1) e.2 }
      else if 500 ≤ e.1 ∧ e.1 ≤ 599 then
        { r with server_errors := set_slot r.server_errors (hash_server_error e.1) e.2 }
      else r).client_errors i = client_step i (r.client_errors i) e := by
      by_cases hc : 400 ≤ e.1 ∧ e.1 ≤ 499
      · by_cases hi : i = hash_client_error e.1
        · simp [hc, hi, set_slot, client_step]
        · simp [hc, set_slot, hi, client_step]
          rw [if_neg (fun h => hi h.symm)]
      · by_cases hs : 500 ≤ e.1 ∧ e.1 ≤ 599
        · simp [hc, hs, client_step]
        · simp [hc, hs, client_step]
    rw [this]
    rfl

lemma load_errors_server_get (m : List (Int × Handler)) (r : route) (i : Nat) :
    (load_errors r m).server_errors i = assign_server_from (r.server_errors i) m i := by
  induction m generalizing r with
  | nil => rfl
  | cons e m ih =>
    show (load_errors _ m).server_errors i = _
    rw [ih]
    have : (if 400 ≤ e.1 ∧ e.1 ≤ 499 then
        { r with client_errors := set_slot r.client_errors (hash_client_error e.1) e.2 }
      else if 500 ≤ e.1 ∧ e.1 ≤ 599 then
        { r with server_errors := set_slot r.server_errors (hash_server_error e.1) e.2 }
      else r).server_errors i = server_step i (r.server_errors i) e := by
      by_cases hc : 400 ≤ e.1 ∧ e.1 ≤ 499
      · have : ¬ (500 ≤ e.1 ∧ e.1 ≤ 599) := by omega
        simp [hc, this, server_step]
      · by_cases hs : 500 ≤ e.1 ∧ e.1 ≤ 599
        · by_cases hi : i = hash_server_error e.1
          · simp [hc, hs, hi, set_slot, server_step]
          · simp [hc, hs, set_slot, hi, server_step]
            rw [if_neg (fun h => hi h.symm)]
        · simp [hc, hs, server_step]
    rw [this]
    rfl

lemma assign_client_from_or (x : Option Handler) (m : List (Int × Handler)) (i : Nat) :
    assign_client_from x m i = (assign_client_from none m i).or x := by
  induction m generalizing x with
  | nil => simp [assign_client_from]
  | cons e m ih =>
    show assign_client_from (client_step i x e) m i = _
    rw [ih]
    have h2 : assign_client_from none (e :: m) i
        = assign_client_from (client_step i none e) m i := rfl
    rw [h2, ih (client_step i none e)]
    cases hd : assign_client_from none m i with
    | some h => simp [Option.or]
    | none =>
      simp only [Option.or]
      unfold client_step
      by_cases hc : (400 ≤ e.1 ∧ e.1 ≤ 499) ∧ hash_client_error e.1 = i
      · simp [hc]
      · simp [hc]

lemma assign_server_from_or (x : Option Handler) (m : List (Int × Handler)) (i : Nat) :
    assign_server_from x m i = (assign_server_from none m i).or x := by
  induction m generalizing x with
  | nil => simp [assign_server_from]
  | cons e m ih =>
    show assign_server_from (server_step i x e) m i = _
    rw [ih]
    have h2 : assign_server_from none (e :: m) i
        = assign_server_from (server_step i none e) m i := rfl
    rw [h2, ih (server_step i none e)]
    cases hd : assign_server_from none m i with
    | some h => simp [Option.or]
    | none =>
      simp only [Option.or]
      unfold server_step
      by_cases hc : (500 ≤ e.1 ∧ e.1 ≤ 599) ∧ hash_server_error e.1 = i
      · simp [hc]
      · simp [hc]

/-- A concrete sample route with empty error tables, used by closed
instantiations of the registry theorems. -/
def sample_route : route :=
  { pattern := "/"
    methods := ["GET"]
    handler := 0
    client_errors := fun _ => none
    server_errors := fun _ => none }

/-- C9: `load_errors` is idempotent with respect to re-registration —
loading the same mapping twice leaves every slot of both tables exactly as
loading it once does — and when a mapping assigns a status more than once
the resolved handler is the last write, deterministically. -/
theorem load_errors_idempotent_lww :
    (∀ r m i,
      (load_errors (load_errors r m) m).client_errors i
        = (load_errors r m).client_errors i ∧
      (load_errors (load_errors r m) m).server_errors i
        = (load_errors r m).server_errors i) ∧
    (∀ r m (s : Int) (h : Handler), 400 ≤ s → s ≤ 499 →
      (load_errors r (m ++ [(s, h)])).client_errors (hash_client_error s) = some h) ∧
    (∀ r m (s : Int) (h : Handler), 500 ≤ s → s ≤ 599 →
      (load_errors r (m ++ [(s, h)])).server_errors (hash_server_error s) = some h) := by
  refine ⟨?_, ?_, ?_⟩
  · intro r m i
    constructor
    · rw [load_errors_client_get, load_errors_client_get,
        assign_client_from_or (assign_client_from (r.client_errors i) m i),
        assign_client_from_or (r.client_errors i)]
      cases assign_client_from none m i with
      | some h => simp [Option.or]
      | none => simp [Option.or]
    · rw [load_errors_server_get, load_errors_server_get,
        assign_server_from_or (assign_server_from (r.server_errors i) m i),
        assign_server_from_or (r.server_errors i)]
      cases assign_server_from none m i with
      | some h => simp [Option.or]
      | none => simp [Option.or]
  · intro r m s h h1 h2
    rw [load_errors_client_get]
    unfold assign_client_from
    rw [List.foldl_append]
    simp [client_step, h1, h2]
  · intro r m s h h1 h2
    rw [load_errors_server_get]
    unfold assign_server_from
    rw [List.foldl_append]
    simp [server_step, h1, h2]

/-- Witness for C9: idempotence at a concrete route and mapping, and last
write wins for a mapping that assigns status 403 twice and one that ends
in an assignment of 503. -/
theorem load_errors_idempotent_lww_witness :
    ((load_errors (load_errors sample_route [(403, 7)]) [(403, 7)]).client_errors 3
      = (load_errors sample_route [(403, 7)]).client_errors 3) ∧
    (load_errors sample_route ([(403, 7)] ++ [(403, 9)])).client_errors
      (hash_client_error 403) = some 9 ∧
    (load_errors sample_route ([] ++ [(503, 5)])).server_errors
      (hash_server_error 503) = some 5 :=
  ⟨(load_errors_idempotent_lww.1 sample_route [(403, 7)] 3).1,
   load_errors_idempotent_lww.2.1 sample_route [(403, 7)] 403 9 (by decide) (by decide),
   load_errors_idempotent_lww.2.2 sample_route [] 503 5 (by decide) (by decide)⟩

/-- The eventual outcome recorded in a request context: a response object
or an error descriptor carrying the classified status.  Modelled from the
spec, which asks for the tagged result type
Outcome = Success(Response) | Failure(StatusCode). -/
inductive Outcome
  | success (resp : Response)
  | failure (status : Int)
deriving DecidableEq

/-- Modelled from the spec: the ephemeral in-flight request context — the
raw request, the flag recording whether the user route handler actually
ran, and the at-most-one recorded outcome. -/
structure RequestCtx where
  req : Request
  called : Bool
  outcome : Option Outcome
deriving DecidableEq

/-- Result of trying to record an outcome: either the updated context or
the fatal, non-recoverable condition raised through `view_fatal` (declared
in view.h with a NORETURN attribute). -/
inductive RecordResult
  | recorded (c : RequestCtx)
  | fatal (message : String)
deriving DecidableEq

/-- Modelled from the spec: recording an outcome into a request context.
Recording into a fresh context stores the outcome; recording a second
outcome is a programming-error condition reported through the fatal,
non-recoverable `view_fatal` path, never a second response. -/
def record_outcome (c : RequestCtx) (o : Outcome) : RecordResult :=
  match c.outcome with
  | none => RecordResult.recorded { c with outcome := some o }
  | some _ => RecordResult.fatal "second outcome recorded for one request context"

/-- The bare generic 500 response emitted when a user error handler itself
fails; minimal by design. -/
def bare_500 : Response :=
  { status := 500, body := "" }

/-- Modelled from the spec: the built-in default handler emits a minimal,
schema-correct error body for the classified status. -/
def default_response (status : Int) : Response :=
  { status := status, body := "error" }

/-- Semantics of user-supplied error handlers: invoked with the request
context, either returns a response or raises. -/
abbrev ErrSem := Handler → RequestCtx → Except String Response

/-- Modelled from the spec: Error Registry lookup for a classified status.
Client-error statuses are looked up in the client tables at their hashed
index, everything else in the server tables (out-of-range statuses land on
the generic default index there).  The chain is per-route override first,
then the application-level entry; `none` means fall through to the
built-in default handler. -/
def lookup_user_handler (app : ViewApp) (r? : Option route) (status : Int) :
    Option Handler :=
  if 400 ≤ status ∧ status ≤ 499 then
    (match r? with
      | some r => r.client_errors (hash_client_error status)
      | none => none).or (app.client_errors (hash_client_error status))
  else
    (match r? with
      | some r => r.server_errors (hash_server_error status)
      | none => none).or (app.server_errors (hash_server_error status))

/-- Modelled from the spec: the body of the declared C function
`fire_error` is absent from the tree.  Per the spec it looks up the Error
Registry entry for the classified status and calls it with the request
context; an exception raised by the error handler itself is
fatal-to-the-request and degrades to the bare generic 500, and when no
user handler is registered the built-in default handler answers.  The
returned flag records whether a user error handler ran. -/
def fire_error (esem : ErrSem) (app : ViewApp) (r? : Option route)
    (status : Int) (ctx : RequestCtx) : Response × Bool :=
  match lookup_user_handler app r? status with
  | some h =>
    match esem h ctx with
    | Except.ok resp => (resp, true)
    | Except.error _ => (bare_500, true)
  | none => (default_response status, false)

/-- A concrete sample request context used by closed instantiations. -/
def sample_ctx : RequestCtx :=
  { req := { method := "GET", path := "/x" }
    called := true
    outcome := none }

/-- A concrete sample application with empty registries and no routes. -/
def sample_app : ViewApp :=
  { routes := []
    client_errors := fun _ => none
    server_errors := fun _ => none }

/-- C3: `fire_error` calls the looked-up registry entry with the request
context, and when that error handler itself raises, the failure does not
propagate: the request is still answered, with the bare generic 500. -/
theorem fire_error_degrades_to_bare_500 :
    (∀ (esem : ErrSem) app r? status ctx (h : Handler) resp,
      lookup_user_handler app r? status = some h →
      esem h ctx = Except.ok resp →
      fire_error esem app r? status ctx = (resp, true)) ∧
    (∀ (esem : ErrSem) app r? status ctx (h : Handler) msg,
      lookup_user_handler app r? status = some h →
      esem h ctx = Except.error msg →
      fire_error esem app r? status ctx = (bare_500, true) ∧ bare_500.status = 500) := by
  constructor
  · intro esem app r? status ctx h resp hl he
    simp [fire_error, hl, he]
  · intro esem app r? status ctx h msg hl he
    simp [fire_error, hl, he, bare_500]

/-- Witness for C3: a registered 404 handler that raises still yields the
bare 500 answer, and one that returns a response has it delivered. -/
theorem fire_error_degrades_to_bare_500_witness :
    (fire_error (fun _ _ => Except.ok (default_response 404)) sample_app
      (some (load_errors sample_route [(404, 1)])) 404 sample_ctx
      = (default_response 404, true)) ∧
    (fire_error (fun _ _ => Except.error "boom") sample_app
      (some (load_errors sample_route [(404, 1)])) 404 sample_ctx
      = (bare_500, true) ∧ bare_500.status = 500) :=
  ⟨fire_error_degrades_to_bare_500.1
      (fun _ _ => Except.ok (default_response 404)) sample_app
      (some (load_errors sample_route [(404, 1)])) 404 sample_ctx 1
      (default_response 404) (by decide) rfl,
   fire_error_degrades_to_bare_500.2
      (fun _ _ => Except.error "boom") sample_app
      (some (load_errors sample_route [(404, 1)])) 404 sample_ctx 1 "boom"
      (by decide) rfl⟩

/-- C5: Error Registry lookup is total — every classified status resolves
either to a user-registered handler (whose answer, or on its failure the
bare 500, is delivered) or to the built-in fallback response; and after
`load_errors` registered a handler for 403, a failure classified as 403
invokes exactly that handler. -/
theorem error_registry_lookup_total :
    (∀ (esem : ErrSem) app r? status ctx,
      (∃ h, lookup_user_handler app r? status = some h ∧
        ((∃ resp, esem h ctx = Except.ok resp ∧
            fire_error esem app r? status ctx = (resp, true)) ∨
         (∃ msg, esem h ctx = Except.error msg ∧
            fire_error esem app r? status ctx = (bare_500, true)))) ∨
      (lookup_user_handler app r? status = none ∧
        fire_error esem app r? status ctx = (default_response status, false))) ∧
    (∀ (esem : ErrSem) app r (h : Handler) resp ctx,
      esem h ctx = Except.ok resp →
      fire_error esem app (some (load_errors r [(403, h)])) 403 ctx = (resp, true)) := by
  constructor
  · intro esem app r? status ctx
    cases hl : lookup_user_handler app r? status with
    | some h =>
      left
      refine ⟨h, rfl, ?_⟩
      cases he : esem h ctx with
      | ok resp => exact Or.inl ⟨resp, rfl, by simp [fire_error, hl, he]⟩
      | error msg => exact Or.inr ⟨msg, rfl, by simp [fire_error, hl, he]⟩
    | none =>
      right
      exact ⟨rfl, by simp [fire_error, hl]⟩
  · intro esem app r h resp ctx he
    have hslot : (load_errors r [(403, h)]).client_errors (hash_client_error 403)
        = some h := by
      show (load_errors r [(403, h)]).client_errors 3 = some h
      simp [load_errors, set_slot, hash_client_error, default_index]
    have hl : lookup_user_handler app (some (load_errors r [(403, h)])) 403
        = some h := by
      simp [lookup_user_handler, hslot]
    simp [fire_error, hl, he]

/-- The error-handler semantics that always returns the given response. -/
def ok_sem (resp : Response) : ErrSem := fun _ _ => Except.ok resp

/-- Witness for C5: the totality disjunction at the empty registry and
status 404, and the 403 scenario at a concrete route, handler and context. -/
theorem error_registry_lookup_total_witness :
    ((∃ h, lookup_user_handler sample_app none 404 = some h ∧
        ((∃ resp, ok_sem (default_response 200) h sample_ctx = Except.ok resp ∧
            fire_error (ok_sem (default_response 200)) sample_app none 404 sample_ctx
              = (resp, true)) ∨
         (∃ msg, ok_sem (default_response 200) h sample_ctx = Except.error msg ∧
            fire_error (ok_sem (default_response 200)) sample_app none 404 sample_ctx
              = (bare_500, true)))) ∨
      (lookup_user_handler sample_app none 404 = none ∧
        fire_error (ok_sem (default_response 200)) sample_app none 404 sample_ctx
          = (default_response 404, false))) ∧
    fire_error (ok_sem (default_response 403)) sample_app
      (some (load_errors sample_route [(403, 9)])) 403 sample_ctx
      = (default_response 403, true) :=
  ⟨error_registry_lookup_total.1 (ok_sem (default_response 200))
      sample_app none 404 sample_ctx,
   error_registry_lookup_total.2 (ok_sem (default_response 403))
      sample_app sample_route 9 (default_response 403) sample_ctx rfl⟩

/-- Result of a Route Table query: a structural match, a path match whose
method set never contains the request method, or no path match at all.
The latter two are distinct so the Dispatcher can distinguish 404 from
405. -/
inductive MatchResult
  | found (r : route)
  | methodMismatch
  | noMatch

/-- Modelled from the spec: Route Table matching.  Routes are tried in
registration order; the first route whose pattern matches the path and
whose method set contains the method wins; a path match with a method
mismatch is remembered and reported as `methodMismatch` only when no later
route matches structurally. -/
def match_route : List route → String → String → MatchResult
  | [], _, _ => MatchResult.noMatch
  | r :: rest, meth, path =>
    if r.pattern = path then
      if meth ∈ r.methods then MatchResult.found r
      else
        match match_route rest meth path with
        | MatchResult.found r2 => MatchResult.found r2
        | _ => MatchResult.methodMismatch
    else match_route rest meth path

lemma match_route_found_spec (table : List route) (meth path : String) (r2 : route) :
    match_route table meth path = MatchResult.found r2 →
    r2 ∈ table ∧ r2.pattern = path ∧ meth ∈ r2.methods := by
  induction table with
  | nil => intro h; cases h
  | cons r rest ih =>
    intro h
    by_cases hp : r.pattern = path
    · rw [match_route, if_pos hp] at h
      by_cases hm : meth ∈ r.methods
      · rw [if_pos hm] at h
        cases h
        exact ⟨List.mem_cons_self _ _, hp, hm⟩
      · rw [if_neg hm] at h
        cases hr : match_route rest meth path with
        | found r3 =>
          rw [hr] at h
          cases h
          have := ih hr
          exact ⟨List.mem_cons_of_mem r this.1, this.2⟩
        | methodMismatch => rw [hr] at h; cases h
        | noMatch => rw [hr] at h; cases h
    · rw [match_route, if_neg hp] at h
      have := ih h
      exact ⟨List.mem_cons_of_mem r this.1, this.2⟩

lemma match_route_noMatch (table : List route) (meth path : String)
    (h : ∀ r ∈ table, r.pattern ≠ path) :
    match_route table meth path = MatchResult.noMatch := by
  induction table with
  | nil => rfl
  | cons r rest ih =>
    rw [match_route, if_neg (h r (List.mem_cons_self r rest))]
    exact ih (fun r2 hr2 => h r2 (List.mem_cons_of_mem r hr2))

lemma match_route_methodMismatch (table : List route) (meth path : String)
    (hex : ∃ r ∈ table, r.pattern = path)
    (hall : ∀ r ∈ table, r.pattern = path → meth ∉ r.methods) :
    match_route table meth path = MatchResult.methodMismatch := by
  induction table with
  | nil => obtain ⟨r, hr, _⟩ := hex; cases hr
  | cons r rest ih =>
    by_cases hp : r.pattern = path
    · rw [match_route, if_pos hp,
        if_neg (hall r (List.mem_cons_self r rest) hp)]
      cases hr : match_route rest meth path with
      | found r2 =>
        have hspec := match_route_found_spec rest meth path r2 hr
        exact absurd hspec.2.2
          (hall r2 (List.mem_cons_of_mem r hspec.1) hspec.2.1)
      | methodMismatch => rfl
      | noMatch => rfl
    · rw [match_route, if_neg hp]
      obtain ⟨r2, hr2, hp2⟩ := hex
      rcases List.mem_cons.mp hr2 with heq | hmem
      · exact absurd (heq ▸ hp2) hp
      · exact ih ⟨r2, hmem, hp2⟩
          (fun r3 hr3 => hall r3 (List.mem_cons_of_mem r hr3))

/-- The Dispatcher state machine states, including the two terminal states:
RESPONDED (exactly one response written) and ABANDONED (connection
cancelled, no response written). -/
inductive DState
  | MATCHING
  | INVOKING
  | SUCCESS
  | FAILED
  | RESPONDED
  | ABANDONED
deriving DecidableEq

/-- Result of invoking a route handler: an immediate legal response, a
malformed result (a framework-contract violation classified as 500), or a
raised condition (framework exceptions carry their own status, an
unclassified exception carries none and defaults to 500). -/
inductive HRes
  | ok (resp : Response)
  | malformed
  | raised (status : Option Int)

/-- Semantics of user route handlers. -/
abbrev HSem := Handler → Request → HRes

/-- The observable result of one dispatched request: terminal state, final
context, the list of responses actually written, how many times the route
handler was invoked, and whether a user error handler ran. -/
structure DispatchResult where
  state : DState
  ctx : RequestCtx
  responses : List Response
  invocations : Nat
  error_handler_ran : Bool
deriving DecidableEq

/-- Modelled from the spec: the FAILED-to-RESPONDED leg of the Dispatcher
— record the failure outcome (a second recording would be fatal), let
`fire_error` produce the response, write it once. -/
def fail_path (esem : ErrSem) (app : ViewApp) (r? : Option route)
    (status : Int) (ctx : RequestCtx) (inv : Nat) :
    Except String DispatchResult :=
  match record_outcome ctx (Outcome.failure status) with
  | RecordResult.fatal m => Except.error m
  | RecordResult.recorded c2 =>
    let pr := fire_error esem app r? status c2
    Except.ok
      { state := DState.RESPONDED
        ctx := c2
        responses := [pr.1]
        invocations := inv
        error_handler_ran := pr.2 }

/-- Modelled from the spec: the INVOKING leg of the Dispatcher — call the
bound handler once with the context carrying `called = true`, then either
record its response (SUCCESS), or fail with 500 on a malformed result, or
fail with the status carried by a raised condition (default 500). -/
def invoke_route (hsem : HSem) (esem : ErrSem) (app : ViewApp) (r : route)
    (req : Request) (ctx1 : RequestCtx) : Except String DispatchResult :=
  match hsem r.handler req with
  | HRes.ok resp =>
    match record_outcome ctx1 (Outcome.success resp) with
    | RecordResult.fatal m => Except.error m
    | RecordResult.recorded c2 =>
      Except.ok
        { state := DState.RESPONDED
          ctx := c2
          responses := [resp]
          invocations := 1
          error_handler_ran := false }
  | HRes.malformed => fail_path esem app (some r) 500 ctx1 1
  | HRes.raised st? => fail_path esem app (some r) (st?.getD 500) ctx1 1

/-- Modelled from the spec: the Dispatcher state machine for one request,
MATCHING to INVOKING to SUCCESS or FAILED to RESPONDED.  No path match
fails with 404, a path match with no allowed method fails with 405, a
structural match invokes the bound handler. -/
def dispatch (hsem : HSem) (esem : ErrSem) (app : ViewApp) (req : Request) :
    Except String DispatchResult :=
  match match_route app.routes req.method req.path with
  | MatchResult.noMatch =>
    fail_path esem app none 404 { req := req, called := false, outcome := none } 0
  | MatchResult.methodMismatch =>
    fail_path esem app none 405 { req := req, called := false, outcome := none } 0
  | MatchResult.found r =>
    invoke_route hsem esem app r req { req := req, called := true, outcome := none }

lemma dispatch_eq_noMatch (hsem : HSem) (esem : ErrSem) (app : ViewApp)
    (req : Request)
    (hm : match_route app.routes req.method req.path = MatchResult.noMatch) :
    dispatch hsem esem app req
      = fail_path esem app none 404 { req := req, called := false, outcome := none } 0 := by
  unfold dispatch
  rw [hm]

lemma dispatch_eq_methodMismatch (hsem : HSem) (esem : ErrSem) (app : ViewApp)
    (req : Request)
    (hm : match_route app.routes req.method req.path = MatchResult.methodMismatch) :
    dispatch hsem esem app req
      = fail_path esem app none 405 { req := req, called := false, outcome := none } 0 := by
  unfold dispatch
  rw [hm]

lemma dispatch_eq_found (hsem : HSem) (esem : ErrSem) (app : ViewApp)
    (req : Request) (r : route)
    (hm : match_route app.routes req.method req.path = MatchResult.found r) :
    dispatch hsem esem app req
      = invoke_route hsem esem app r req { req := req, called := true, outcome := none } := by
  unfold dispatch
  rw [hm]

/-- C2: every dispatched request reaches the terminal RESPONDED state with
exactly one response written and exactly one outcome recorded in its
context; a matched route has its handler invoked exactly once; and
recording a second outcome into a context is the fatal, non-recoverable
programming-error condition, never a second response, while recording into
a fresh context stores the outcome. -/
theorem dispatch_single_outcome :
    (∀ (hsem : HSem) (esem : ErrSem) app req,
      ∃ res, dispatch hsem esem app req = Except.ok res ∧
        res.state = DState.RESPONDED ∧
        res.responses.length = 1 ∧
        ∃ o, res.ctx.outcome = some o) ∧
    (∀ (hsem : HSem) (esem : ErrSem) app req r,
      match_route app.routes req.method req.path = MatchResult.found r →
      ∃ res, dispatch hsem esem app req = Except.ok res ∧
        res.invocations = 1) ∧
    (∀ c o o2, c.outcome = some o2 →
      record_outcome c o
        = RecordResult.fatal "second outcome recorded for one request context") ∧
    (∀ c o, c.outcome = none →
      record_outcome c o = RecordResult.recorded { c with outcome := some o }) := by
  refine ⟨?_, ?_, ?_, ?_⟩
  · intro hsem esem app req
    cases hm : match_route app.routes req.method req.path with
    | noMatch =>
      rw [dispatch_eq_noMatch hsem esem app req hm]
      exact ⟨_, rfl, rfl, rfl, Outcome.failure 404, rfl⟩
    | methodMismatch =>
      rw [dispatch_eq_methodMismatch hsem esem app req hm]
      exact ⟨_, rfl, rfl, rfl, Outcome.failure 405, rfl⟩
    | found r =>
      rw [dispatch_eq_found hsem esem app req r hm]
      unfold invoke_route
      cases hh : hsem r.handler req with
      | ok resp => exact ⟨_, rfl, rfl, rfl, Outcome.success resp, rfl⟩
      | malformed => exact ⟨_, rfl, rfl, rfl, Outcome.failure 500, rfl⟩
      | raised st? =>
        exact ⟨_, rfl, rfl, rfl, Outcome.failure (st?.getD 500), rfl⟩
  · intro hsem esem app req r hm
    rw [dispatch_eq_found hsem esem app req r hm]
    unfold invoke_route
    cases hh : hsem r.handler req with
    | ok resp => exact ⟨_, rfl, rfl⟩
    | malformed => exact ⟨_, rfl, rfl⟩
    | raised st? => exact ⟨_, rfl, rfl⟩
  · intro c o o2 h
    unfold record_outcome
    rw [h]
  · intro c o h
    unfold record_outcome
    rw [h]

/-- Witness for C2: a concrete dispatched request reaches RESPONDED with
one response and one recorded outcome; a concrete matched request invokes
its handler once; and a concrete double recording is fatal while a fresh
recording stores the outcome. -/
theorem dispatch_single_outcome_witness :
    (∃ res, dispatch (fun _ _ => HRes.ok (default_response 200))
        (ok_sem (default_response 200)) sample_app
        { method := "GET", path := "/nope" } = Except.ok res ∧
      res.state = DState.RESPONDED ∧
      res.responses.length = 1 ∧
      ∃ o, res.ctx.outcome = some o) ∧
    (record_outcome { sample_ctx with outcome := some (Outcome.failure 404) }
        (Outcome.failure 405)
      = RecordResult.fatal "second outcome recorded for one request context") ∧
    (record_outcome sample_ctx (Outcome.failure 404)
      = RecordResult.recorded { sample_ctx with outcome := some (Outcome.failure 404) }) :=
  ⟨dispatch_single_outcome.1 (fun _ _ => HRes.ok (default_response 200))
      (ok_sem (default_response 200)) sample_app { method := "GET", path := "/nope" },
   dispatch_single_outcome.2.2.1
      { sample_ctx with outcome := some (Outcome.failure 404) }
      (Outcome.failure 405) (Outcome.failure 404) rfl,
   dispatch_single_outcome.2.2.2 sample_ctx (Outcome.failure 404) rfl⟩

/-- C6: a request whose path matches no registered route fails with 404
and the called flag false; a request whose path matches some route but
whose method is allowed by none of the path-matching routes fails with
405, also with the called flag false — the two cases are distinguished. -/
theorem dispatch_404_vs_405 :
    (∀ (hsem : HSem) (esem : ErrSem) app req,
      (∀ r ∈ app.routes, r.pattern ≠ req.path) →
      ∃ res, dispatch hsem esem app req = Except.ok res ∧
        res.ctx.outcome = some (Outcome.failure 404) ∧
        res.ctx.called = false) ∧
    (∀ (hsem : HSem) (esem : ErrSem) app req,
      (∃ r ∈ app.routes, r.pattern = req.path) →
      (∀ r ∈ app.routes, r.pattern = req.path → req.method ∉ r.methods) →
      ∃ res, dispatch hsem esem app req = Except.ok res ∧
        res.ctx.outcome = some (Outcome.failure 405) ∧
        res.ctx.called = false) := by
  constructor
  · intro hsem esem app req h
    rw [dispatch_eq_noMatch hsem esem app req
      (match_route_noMatch app.routes req.method req.path h)]
    exact ⟨_, rfl, rfl, rfl⟩
  · intro hsem esem app req hex hall
    rw [dispatch_eq_methodMismatch hsem esem app req
      (match_route_methodMismatch app.routes req.method req.path hex hall)]
    exact ⟨_, rfl, rfl, rfl⟩

/-- A concrete sample application holding one route (GET on the root
path), used by closed instantiations of the dispatch theorems. -/
def sample_app2 : ViewApp :=
  { routes := [sample_route]
    client_errors := fun _ => none
    server_errors := fun _ => none }

/-- Witness for C6: the unregistered path scenario at an application with
no routes, and the wrong-method scenario at an application whose only
route serves GET on the root path. -/
theorem dispatch_404_vs_405_witness :
    (∃ res, dispatch (fun _ _ => HRes.ok (default_response 200))
        (ok_sem (default_response 200)) sample_app
        { method := "GET", path := "/nope" } = Except.ok res ∧
      res.ctx.outcome = some (Outcome.failure 404) ∧
      res.ctx.called = false) ∧
    (∃ res, dispatch (fun _ _ => HRes.ok (default_response 200))
        (ok_sem (default_response 200)) sample_app2
        { method := "POST", path := "/" } = Except.ok res ∧
      res.ctx.outcome = some (Outcome.failure 405) ∧
      res.ctx.called = false) :=
  ⟨dispatch_404_vs_405.1 (fun _ _ => HRes.ok (default_response 200))
      (ok_sem (default_response 200)) sample_app { method := "GET", path := "/nope" }
      (by intro r hr; cases hr),
   dispatch_404_vs_405.2 (fun _ _ => HRes.ok (default_response 200))
      (ok_sem (default_response 200)) sample_app2 { method := "POST", path := "/" }
      ⟨sample_route, List.mem_singleton.mpr rfl, rfl⟩
      (by
        intro r hr hp
        have hroutes : sample_app2.routes = [sample_route] := rfl
        rw [hroutes, List.mem_singleton] at hr
        subst hr
        decide)⟩

/-- Outcome of checking an incoming WebSocket upgrade request: either the
handshake is acceptable or it violates the protocol (missing required
header, unsupported version, failed subprotocol negotiation). -/
inductive HandshakeCheck
  | ok
  | violation (reason : String)

/-- Modelled from the spec: the fixed handshake-failure response the Guard
emits — no body, handshake-specific status line. -/
def handshake_failure_response : Response :=
  { status := 400, body := "" }

/-- Observable result of the WebSocket Handshake Guard: whether the
handshake-specific error (the `ws_handshake_error` object declared in
view.h) was raised, the emitted response if any, whether the connection
stays open, and whether any user error handler ran. -/
structure WsResult where
  raised_handshake_error : Bool
  response : Option Response
  connection_open : Bool
  user_error_handler_ran : Bool
deriving DecidableEq

/-- Modelled from the spec: the WebSocket Handshake Guard.  On a protocol
violation it raises the handshake-specific error, short-circuits the
normal Error Registry lookup, emits the fixed handshake-failure response
and tears down the connection; no user error handler runs.  The registry
and error-handler semantics are in scope but never consulted. -/
def ws_guard (esem : ErrSem) (app : ViewApp) (check : HandshakeCheck) : WsResult :=
  match check with
  | HandshakeCheck.ok =>
    { raised_handshake_error := false
      response := none
      connection_open := true
      user_error_handler_ran := false }
  | HandshakeCheck.violation _ =>
    { raised_handshake_error := true
      response := some handshake_failure_response
      connection_open := false
      user_error_handler_ran := false }

/-- C7: a failed WebSocket handshake raises the handshake-specific error,
emits the fixed handshake-failure response, tears down the connection and
never invokes any user error handler; the result is identical whatever
error registry or error-handler semantics are installed, so the failure is
not classified through the Error Registry. -/
theorem ws_guard_short_circuits :
    ∀ (esem esem2 : ErrSem) (app app2 : ViewApp) (reason : String),
      ws_guard esem app (HandshakeCheck.violation reason)
        = { raised_handshake_error := true
            response := some handshake_failure_response
            connection_open := false
            user_error_handler_ran := false } ∧
      ws_guard esem app (HandshakeCheck.violation reason)
        = ws_guard esem2 app2 (HandshakeCheck.violation reason) := by
  intro esem esem2 app app2 reason
  exact ⟨rfl, rfl⟩

/-- An event observed at the Awaitable Bridge suspension point: the
pending computation completed with a handler result, or the underlying
connection was cancelled while the computation was still pending. -/
inductive BridgeEvent
  | completed (res : HRes)
  | cancelled

/-- Observable result of resuming the Dispatcher through the Awaitable
Bridge: terminal state, responses actually written, whether the context
resources were released, and whether the pending computation was
cancelled. -/
structure BridgeResult where
  state : DState
  responses : List Response
  resources_released : Bool
  computation_cancelled : Bool
deriving DecidableEq

/-- Modelled from the spec: the Awaitable Bridge completion step.  A
completed computation delivers its result or failure into the same
context slot an immediate handler would have used and resumes the state
machine to RESPONDED; a cancelled connection cancels the pending
computation and releases the context without any response write,
terminating in the distinct ABANDONED state. -/
def bridge_step (esem : ErrSem) (app : ViewApp) (r : route) (ctx : RequestCtx)
    (ev : BridgeEvent) : Except String BridgeResult :=
  match ev with
  | BridgeEvent.cancelled =>
    Except.ok
      { state := DState.ABANDONED
        responses := []
        resources_released := true
        computation_cancelled := true }
  | BridgeEvent.completed hres =>
    match hres with
    | HRes.ok resp =>
      match record_outcome ctx (Outcome.success resp) with
      | RecordResult.fatal m => Except.error m
      | RecordResult.recorded _ =>
        Except.ok
          { state := DState.RESPONDED
            responses := [resp]
            resources_released := true
            computation_cancelled := false }
    | HRes.malformed =>
      match record_outcome ctx (Outcome.failure 500) with
      | RecordResult.fatal m => Except.error m
      | RecordResult.recorded c2 =>
        Except.ok
          { state := DState.RESPONDED
            responses := [(fire_error esem app (some r) 500 c2).1]
            resources_released := true
            computation_cancelled := false }
    | HRes.raised st? =>
      match record_outcome ctx (Outcome.failure (st?.getD 500)) with
      | RecordResult.fatal m => Except.error m
      | RecordResult.recorded c2 =>
        Except.ok
          { state := DState.RESPONDED
            responses := [(fire_error esem app (some r) (st?.getD 500) c2).1]
            resources_released := true
            computation_cancelled := false }

/-- C8: cancellation of the connection while the asynchronous computation
is pending cancels the computation, releases the context resources, ends
in the terminal ABANDONED state — which is distinct from RESPONDED — and
writes no response. -/
theorem bridge_cancellation_abandons :
    ∀ (esem : ErrSem) (app : ViewApp) (r : route) (ctx : RequestCtx),
      bridge_step esem app r ctx BridgeEvent.cancelled
        = Except.ok
          { state := DState.ABANDONED
            responses := []
            resources_released := true
            computation_cancelled := true } ∧
      DState.ABANDONED ≠ DState.RESPONDED := by
  intro esem app r ctx
  exact ⟨rfl, by decide⟩

/-- Modelled from the spec: status classification as performed during
request processing.  The C declarations take only the status code, and
the spec calls the Status Classifier a pure function, so the application
state, the matched route and the request are in scope but never read. -/
def classify_status (app : ViewApp) (r? : Option route) (req : Request)
    (status : Int) : Nat :=
  if 400 ≤ status ∧ status ≤ 499 then hash_client_error status
  else hash_server_error status

/-- C10: classification is a deterministic pure function of the status
code alone — any two invocations with equal status, in any application
state, at any matched route and for any request, return the identical
index. -/
theorem classify_state_independent :
    (∀ (app app2 : ViewApp) (r? r?2 : Option route) (req req2 : Request)
        (status : Int),
      classify_status app r? req status = classify_status app2 r?2 req2 status) ∧
    (∀ s t : Int, s = t →
      hash_client_error s = hash_client_error t ∧
      hash_server_error s = hash_server_error t) := by
  constructor
  · intro app app2 r? r?2 req req2 status
    rfl
  · intro s t h
    rw [h]
    exact ⟨rfl, rfl⟩

/-- Witness for C10: two invocations at status 404 agree, in two different
application states. -/
theorem classify_state_independent_witness :
    classify_status sample_app none sample_ctx.req 404
      = classify_status sample_app2 (some sample_route)
          { method := "POST", path := "/" } 404 ∧
    hash_client_error 404 = hash_client_error 404 ∧
    hash_server_error 404 = hash_server_error 404 :=
  ⟨classify_state_independent.1 sample_app sample_app2 none (some sample_route)
      sample_ctx.req { method := "POST", path := "/" } 404,
   classify_state_independent.2 404 404 rfl⟩

end ViewPy
